import Mathlib

/-!
Shallow embedding of the study-dashboard domain logic
(`src/model.py` and `src/service.py`).

Python floats are modelled by `ℚ` (exact rational semantics of the
numeric literals in the source); Python `datetime.date` by a `Datum`
record of proleptic-Gregorian year/month/day, with `Datum.toOrdinal`
mirroring `date.toordinal` so that date subtraction `(d2 - d1).days`
becomes `tage_diff`.  All three failure branches of
`Student.note_eintragen` raise `ValueError` in the source at three
distinct raise sites; they are modelled by the three constructors of
`NoteFehler`, matching the spec's error taxonomy
(NotFoundError / InvalidStateError / ValidationError).
-/

namespace StudyDashboard

/-- `Pruefungsform` enum from `model.py`. -/
inductive Pruefungsform
  | klausur
  | hausarbeit
deriving DecidableEq, Repr

/-- The `.value` string of the Python enum member. -/
def Pruefungsform.value : Pruefungsform → String
  | .klausur => "Klausur"
  | .hausarbeit => "Hausarbeit"

/-- `ModulStatus` enum from `model.py`: BESTANDEN = PASSED,
NICHT_BESTANDEN = FAILED, ANGEMELDET = REGISTERED. -/
inductive ModulStatus
  | bestanden
  | nichtBestanden
  | angemeldet
deriving DecidableEq, Repr

/-- The `.value` string of the Python enum member. -/
def ModulStatus.value : ModulStatus → String
  | .bestanden => "Bestanden"
  | .nichtBestanden => "Nicht bestanden"
  | .angemeldet => "Angemeldet"

/-- `Abschluss` enum from `model.py`. -/
inductive Abschluss
  | bsc
  | msc
deriving DecidableEq, Repr

/-- The `.value` string of the Python enum member. -/
def Abschluss.value : Abschluss → String
  | .bsc => "Bachelor of Science"
  | .msc => "Master of Science"

/-- `ZielStatus` enum from `model.py`: ERREICHT = ACHIEVED,
NICHT_ERREICHT = NOT_ACHIEVED, IN_ARBEIT = IN_PROGRESS. -/
inductive ZielStatus
  | erreicht
  | nichtErreicht
  | inArbeit
deriving DecidableEq, Repr

/-- `Modul` dataclass from `model.py`. -/
structure Modul where
  id : Nat
  bezeichnung : String
  ects_punkte : Nat
  semester : Nat
  pruefungsform : Pruefungsform
deriving DecidableEq, Repr

/-- `Studiengang` dataclass from `model.py`. -/
structure Studiengang where
  id : Nat
  bezeichnung : String
  gesamtects : Nat
  abschluss : Abschluss
  module : List Modul
deriving DecidableEq, Repr

/-- `Studienleistung` dataclass from `model.py` (an achievement:
module reference, optional grade, status). -/
structure Studienleistung where
  id : Nat
  modul : Modul
  note : Option ℚ
  status : ModulStatus
deriving DecidableEq, Repr

/-- A calendar date (proleptic Gregorian), standing in for Python's
`datetime.date`. -/
structure Datum where
  year : Int
  month : Int
  day : Int
deriving DecidableEq, Repr

/-- The closed set of `Studienziel` variants from `model.py`
(`Notenziel` with its `zielnote`, `Zeitziel` with its
`zieldauer_in_jahren`), as a sum type. -/
inductive Studienziel
  | notenziel (id : Nat) (zielnote : ℚ)
  | zeitziel (id : Nat) (zieldauer_in_jahren : Int)
deriving DecidableEq, Repr

/-- `Student` dataclass from `model.py` (aggregate root). -/
structure Student where
  id : Nat
  name : String
  matrikelnummer : Nat
  studienbeginn : Datum
  studiengang : Studiengang
  leistungen : List Studienleistung
  ziele : List Studienziel
deriving DecidableEq, Repr

/-- Gregorian leap-year test, as used by Python's `datetime`. -/
def istSchaltjahr (y : Int) : Bool :=
  (y % 4 == 0 && y % 100 != 0) || y % 400 == 0

/-- Cumulative days before month `m` in a non-leap year. -/
def tage_vor_monat (m : Int) : Int :=
  if m ≤ 1 then 0
  else if m = 2 then 31
  else if m = 3 then 59
  else if m = 4 then 90
  else if m = 5 then 120
  else if m = 6 then 151
  else if m = 7 then 181
  else if m = 8 then 212
  else if m = 9 then 243
  else if m = 10 then 273
  else if m = 11 then 304
  else 334

/-- Proleptic-Gregorian ordinal of a date (day 1 = 0001-01-01),
matching Python's `date.toordinal`. -/
def Datum.toOrdinal (d : Datum) : Int :=
  let y := d.year - 1
  365 * y + y.fdiv 4 - y.fdiv 100 + y.fdiv 400
    + tage_vor_monat d.month
    + (if 2 < d.month ∧ istSchaltjahr d.year then 1 else 0)
    + d.day

/-- `(d2 - d1).days` of Python's `datetime.date` subtraction. -/
def tage_diff (d2 d1 : Datum) : Int :=
  d2.toOrdinal - d1.toOrdinal

/-- `Student.berechne_gesamt_ects` from `model.py`: sum of module
credits over achievements with status BESTANDEN. -/
def berechne_gesamt_ects (s : Student) : Nat :=
  ((s.leistungen.filter (fun l => l.status = ModulStatus.bestanden)).map
    (fun l => l.modul.ects_punkte)).sum

/-- The list comprehension inside `Student.berechne_notendurchschnitt`:
grades of achievements whose grade is present and whose status is
BESTANDEN or NICHT_BESTANDEN. -/
def relevante_noten (s : Student) : List ℚ :=
  s.leistungen.filterMap (fun l =>
    match l.note with
    | some n =>
        if l.status = ModulStatus.bestanden ∨ l.status = ModulStatus.nichtBestanden
        then some n else none
    | none => none)

/-- `Student.berechne_notendurchschnitt` from `model.py`: plain mean of
the relevant grades, `none` when there are none. -/
def berechne_notendurchschnitt (s : Student) : Option ℚ :=
  let noten := relevante_noten s
  if noten = [] then none
  else some (noten.sum / (noten.length : ℚ))

/-- `Student.berechne_aktuelles_semester` from `model.py`: month
difference by calendar components, floor-divided by 6, plus 1.
Python's `//` on ints is floor division, hence `Int.fdiv`. -/
def berechne_aktuelles_semester (heute : Datum) (s : Student) : Int :=
  let jahre_diff := heute.year - s.studienbeginn.year
  let monate_diff := heute.month - s.studienbeginn.month
  let gesamt_monate := jahre_diff * 12 + monate_diff
  gesamt_monate.fdiv 6 + 1

/-- `Notenziel.werte_status_aus` from `model.py`. -/
def notenziel_werte_status_aus (zielnote : ℚ) (student : Student) : ZielStatus :=
  match berechne_notendurchschnitt student with
  | none => ZielStatus.inArbeit
  | some durchschnitt =>
      if durchschnitt ≤ zielnote then ZielStatus.erreicht
      else
        let toleranz : ℚ := 3/10
        if durchschnitt ≤ zielnote + toleranz then ZielStatus.inArbeit
        else ZielStatus.nichtErreicht

/-- `Zeitziel.werte_status_aus` from `model.py`; `heute` stands for
`date.today()`. -/
def zeitziel_werte_status_aus (zieldauer_in_jahren : Int) (heute : Datum)
    (student : Student) : ZielStatus :=
  let gesamtects : ℚ := (student.studiengang.gesamtects : ℚ)
  if zieldauer_in_jahren ≤ 0 then ZielStatus.inArbeit
  else
    let soll_rate_pro_jahr := gesamtects / (zieldauer_in_jahren : ℚ)
    let tage_im_studium := tage_diff heute student.studienbeginn
    let jahre_im_studium := (tage_im_studium : ℚ) / (36525/100 : ℚ)
    let soll_ects_stand_heute := soll_rate_pro_jahr * jahre_im_studium
    let ist_ects_stand_heute : ℚ := (berechne_gesamt_ects student : ℚ)
    let differenz := ist_ects_stand_heute - soll_ects_stand_heute
    if 0 ≤ differenz then ZielStatus.erreicht
    else if |differenz| ≤ 15 then ZielStatus.inArbeit
    else ZielStatus.nichtErreicht

/-- `Studienziel.werte_status_aus` dispatch from `model.py`. -/
def werte_status_aus (ziel : Studienziel) (heute : Datum) (student : Student) :
    ZielStatus :=
  match ziel with
  | .notenziel _ zielnote => notenziel_werte_status_aus zielnote student
  | .zeitziel _ dauer => zeitziel_werte_status_aus dauer heute student

/-- The three `raise ValueError` sites of `Student.note_eintragen`,
in the spec's taxonomy: `notFound` = achievement id not on the student,
`invalidState` = status is not ANGEMELDET, `validation` = grade out of
[1.0, 5.0]. -/
inductive NoteFehler
  | notFound
  | invalidState
  | validation
deriving DecidableEq, Repr

/-- In-place mutation of the first achievement with the given id
(Python mutates the object returned by `next(...)`, which is the first
match; list order is unchanged). -/
def update_leistung (ls : List Studienleistung) (lid : Nat) (note : ℚ)
    (st : ModulStatus) : List Studienleistung :=
  match ls with
  | [] => []
  | l :: rest =>
      if l.id = lid then { l with note := some note, status := st } :: rest
      else l :: update_leistung rest lid note st

/-- `Student.note_eintragen` from `model.py`, as explicit state passing:
the first component is the outcome (`raise` = `.error`), the second the
student after the call (unchanged on every error, since all three
checks precede the mutations). -/
def note_eintragen (s : Student) (leistung_id : Nat) (note : ℚ) :
    Except NoteFehler Unit × Student :=
  match s.leistungen.find? (fun l => l.id = leistung_id) with
  | none => (Except.error NoteFehler.notFound, s)
  | some leistung =>
      if leistung.status ≠ ModulStatus.angemeldet then
        (Except.error NoteFehler.invalidState, s)
      else if ¬ (1 ≤ note ∧ note ≤ 5) then
        (Except.error NoteFehler.validation, s)
      else
        let neuer_status :=
          if 1 ≤ note ∧ note ≤ 4 then ModulStatus.bestanden
          else ModulStatus.nichtBestanden
        (Except.ok (),
          { s with leistungen := update_leistung s.leistungen leistung_id note neuer_status })

/-- One entry of `semester_daten_map` in
`DashboardService.get_student_dashboard` (`service.py` lines 64-70):
achievement id, module title, exam-form string, grade-or-absent,
status string. -/
structure LeistungView where
  id : Nat
  modul : String
  form : String
  note : Option ℚ
  status : ModulStatus
deriving DecidableEq, Repr

/-- The per-achievement dictionary built in
`get_student_dashboard`. -/
def leistungView (l : Studienleistung) : LeistungView :=
  { id := l.id
    modul := l.modul.bezeichnung
    form := l.modul.pruefungsform.value
    note := l.note
    status := l.status }

/-- The initial dictionary `{i: [] for i in range(1, 7)}` of
`get_student_dashboard`, as a partial map: keys 1..6 hold a list,
other keys are absent. -/
def semester_init : Nat → Option (List LeistungView) :=
  fun k => if 1 ≤ k ∧ k ≤ 6 then some [] else none

/-- One iteration of the grouping loop of `get_student_dashboard`:
`if sem in semester_daten_map: semester_daten_map[sem].append(...)`. -/
def semester_schritt (f : Nat → Option (List LeistungView))
    (l : Studienleistung) : Nat → Option (List LeistungView) :=
  if (f l.modul.semester).isSome then
    fun k =>
      if k = l.modul.semester then (f k).map (fun xs => xs ++ [leistungView l])
      else f k
  else f

/-- The `semester_daten_map` built by the loop in
`get_student_dashboard`. -/
def semester_daten_map (leistungen : List Studienleistung) :
    Nat → Option (List LeistungView) :=
  leistungen.foldl semester_schritt semester_init

/-- Python's `round` (round half to even), applied to the exact
rational value. -/
def pyRound (q : ℚ) : Int :=
  let n := ⌊q⌋
  let r := q - (n : ℚ)
  if r < 1/2 then n
  else if 1/2 < r then n + 1
  else if 2 ∣ n then n else n + 1

/-- Outcome type of the service operations: `attributeError` is the
Python `AttributeError` raised when a method is invoked on the `None`
returned by `find_by_id` (the absent branch is unguarded in
`service.py`); `valueError e` is the domain `ValueError` re-raised by
`note_speichern`. -/
inductive ServiceFehler
  | attributeError
  | valueError (e : NoteFehler)
deriving DecidableEq, Repr

/-- The `StudentRepository` protocol (`model.py`): only `find_by_id`
matters for the embedded service operations; `save` is modelled by
returning the student to be saved. -/
structure Repo where
  find_by_id : Nat → Option Student

/-- The `fortschritt` sub-dictionary of the dashboard view model. -/
structure Fortschritt where
  aktuell_ects : Nat
  gesamt_ects : Nat
  prozent : Int
deriving DecidableEq, Repr

/-- The `student_view_data` dictionary of
`DashboardService.get_student_dashboard`.  The purely presentational
string fields (`studienbeginn` date formatting and the per-goal
display texts of `werte_ziele_aus`) are omitted; for the goals only
the logical `ZielStatus` of each goal is kept, in declaration
order. -/
structure StudentViewData where
  id : Nat
  name : String
  matrikelnummer : Nat
  studiengang : String
  aktuelles_semester : Int
  ziele : List ZielStatus
  semester_data : Nat → Option (List LeistungView)
  fortschritt : Fortschritt

/-- `DashboardService.get_student_dashboard` from `service.py`;
`heute` stands for `date.today()`.  The source calls
`student.berechne_gesamt_ects()` directly on the result of
`find_by_id`, so the absent case faults with `AttributeError`. -/
def get_student_dashboard (repo : Repo) (heute : Datum) (student_id : Nat) :
    Except ServiceFehler StudentViewData :=
  match repo.find_by_id student_id with
  | none => Except.error ServiceFehler.attributeError
  | some student =>
      let erreichte_ects := berechne_gesamt_ects student
      let gesamt_ects := student.studiengang.gesamtects
      let aktuelles_semester := berechne_aktuelles_semester heute student
      let fortschritt_prozent : Int :=
        if 0 < gesamt_ects then
          pyRound ((erreichte_ects : ℚ) / (gesamt_ects : ℚ) * 100)
        else 0
      Except.ok
        { id := student.id
          name := student.name
          matrikelnummer := student.matrikelnummer
          studiengang := student.studiengang.bezeichnung ++ " ("
            ++ student.studiengang.abschluss.value ++ ")"
          aktuelles_semester := aktuelles_semester
          ziele := student.ziele.map (fun z => werte_status_aus z heute student)
          semester_data := semester_daten_map student.leistungen
          fortschritt :=
            { aktuell_ects := erreichte_ects
              gesamt_ects := gesamt_ects
              prozent := fortschritt_prozent } }

/-- `DashboardService.note_speichern` from `service.py`: load, run
`note_eintragen`, re-raise a domain `ValueError` unchanged, else save.
The absent-student case faults with `AttributeError` exactly as in the
source (no guard).  The saved student is returned. -/
def note_speichern (repo : Repo) (student_id : Nat) (leistung_id : Nat)
    (note : ℚ) : Except ServiceFehler Student :=
  match repo.find_by_id student_id with
  | none => Except.error ServiceFehler.attributeError
  | some student =>
      match note_eintragen student leistung_id note with
      | (Except.error e, _) => Except.error (ServiceFehler.valueError e)
      | (Except.ok _, s) => Except.ok s

/-- The grade/status invariant of the spec (section 8): BESTANDEN
implies a present grade ≤ 4.0, NICHT_BESTANDEN implies a present grade
> 4.0. -/
def NotenInvariante (s : Student) : Prop :=
  ∀ l ∈ s.leistungen,
    (l.status = ModulStatus.bestanden → ∃ n, l.note = some n ∧ n ≤ 4) ∧
    (l.status = ModulStatus.nichtBestanden → ∃ n, l.note = some n ∧ 4 < n)

/-! ### Concrete sample data (used to instantiate the theorems) -/

/-- A sample module in semester 1 worth 5 ECTS. -/
def modulEx : Modul := ⟨1, "Mathematik 1", 5, 1, Pruefungsform.klausur⟩

/-- A sample module in semester 2 worth 60 ECTS. -/
def modulEx60 : Modul := ⟨2, "Projekt", 60, 2, Pruefungsform.hausarbeit⟩

/-- A sample module whose recommended semester 9 lies outside 1..6. -/
def modulEx9 : Modul := ⟨3, "Externes Modul", 5, 9, Pruefungsform.klausur⟩

/-- A sample 180-ECTS program. -/
def studiengangEx : Studiengang :=
  ⟨1, "Informatik", 180, Abschluss.bsc, [modulEx, modulEx60]⟩

/-- A registered, ungraded achievement. -/
def leistungEx : Studienleistung := ⟨1, modulEx, none, ModulStatus.angemeldet⟩

/-- A passed achievement with grade 1.8 worth 60 ECTS. -/
def leistungEx2 : Studienleistung := ⟨2, modulEx60, some (9/5), ModulStatus.bestanden⟩

/-- An achievement whose module's semester lies outside 1..6. -/
def leistungEx9 : Studienleistung := ⟨3, modulEx9, none, ModulStatus.angemeldet⟩

/-- A sample student holding one registered achievement. -/
def studentEx : Student :=
  ⟨1, "Max Mustermann", 1000, ⟨2024, 10, 1⟩, studiengangEx, [leistungEx], []⟩

/-- A sample student with 60 ECTS earned and grade average 1.8. -/
def studentEx2 : Student :=
  ⟨2, "Erika Musterfrau", 1001, ⟨2024, 10, 1⟩, studiengangEx,
    [leistungEx2, leistungEx9], []⟩

/-- A repository that knows no student. -/
def repoLeer : Repo := ⟨fun _ => none⟩

deriving instance DecidableEq for Except

/-! ### Helper lemmas about `note_eintragen` and `update_leistung` -/

theorem note_eintragen_of_find?_none (s : Student) (lid : Nat) (g : ℚ)
    (h : s.leistungen.find? (fun x => x.id = lid) = none) :
    note_eintragen s lid g = (Except.error NoteFehler.notFound, s) := by
  unfold note_eintragen
  rw [h]

theorem note_eintragen_of_find?_some (s : Student) (lid : Nat) (g : ℚ)
    (l : Studienleistung) (h : s.leistungen.find? (fun x => x.id = lid) = some l) :
    note_eintragen s lid g =
      if l.status ≠ ModulStatus.angemeldet then
        (Except.error NoteFehler.invalidState, s)
      else if ¬ (1 ≤ g ∧ g ≤ 5) then
        (Except.error NoteFehler.validation, s)
      else
        (Except.ok (),
          { s with
              leistungen :=
                update_leistung s.leistungen lid g
                  (if 1 ≤ g ∧ g ≤ 4 then ModulStatus.bestanden
                   else ModulStatus.nichtBestanden) }) := by
  unfold note_eintragen
  rw [h]

theorem find?_update_leistung (ls : List Studienleistung) (lid : Nat) (n : ℚ)
    (st : ModulStatus) (l : Studienleistung)
    (h : ls.find? (fun x => x.id = lid) = some l) :
    (update_leistung ls lid n st).find? (fun x => x.id = lid)
      = some { l with note := some n, status := st } := by
  induction ls with
  | nil => simp at h
  | cons a as ih =>
      by_cases ha : a.id = lid
      · rw [List.find?_cons_of_pos _ (by simpa using ha)] at h
        injection h with h
        subst h
        unfold update_leistung
        rw [if_pos ha]
        exact List.find?_cons_of_pos _ (by simpa using ha)
      · rw [List.find?_cons_of_neg _ (by simpa using ha)] at h
        unfold update_leistung
        rw [if_neg ha, List.find?_cons_of_neg _ (by simpa using ha)]
        exact ih h

theorem mem_update_leistung {ls : List Studienleistung} {lid : Nat} {n : ℚ}
    {st : ModulStatus} {x : Studienleistung}
    (hx : x ∈ update_leistung ls lid n st) :
    x ∈ ls ∨ (x.note = some n ∧ x.status = st) := by
  induction ls with
  | nil => simp [update_leistung] at hx
  | cons a as ih =>
      unfold update_leistung at hx
      by_cases ha : a.id = lid
      · rw [if_pos ha] at hx
        rcases List.mem_cons.mp hx with rfl | hx
        · exact Or.inr ⟨rfl, rfl⟩
        · exact Or.inl (List.mem_cons_of_mem _ hx)
      · rw [if_neg ha] at hx
        rcases List.mem_cons.mp hx with rfl | hx
        · exact Or.inl (List.mem_cons_self _ _)
        · rcases ih hx with h | h
          · exact Or.inl (List.mem_cons_of_mem _ h)
          · exact Or.inr h

theorem note_eintragen_ok_eq (s : Student) (lid : Nat) (g : ℚ)
    (l : Studienleistung)
    (hf : s.leistungen.find? (fun x => x.id = lid) = some l)
    (hst : l.status = ModulStatus.angemeldet) (h1 : 1 ≤ g) (h5 : g ≤ 5) :
    note_eintragen s lid g =
      (Except.ok (),
        { s with
            leistungen :=
              update_leistung s.leistungen lid g
                (if 1 ≤ g ∧ g ≤ 4 then ModulStatus.bestanden
                 else ModulStatus.nichtBestanden) }) := by
  rw [note_eintragen_of_find?_some s lid g l hf, if_neg (by simp [hst]),
    if_neg (by push_neg; exact ⟨h1, h5⟩)]

theorem note_eintragen_ok_iff (s : Student) (lid : Nat) (g : ℚ) :
    (note_eintragen s lid g).1 = Except.ok () ↔
      ∃ l, s.leistungen.find? (fun x => x.id = lid) = some l ∧
        l.status = ModulStatus.angemeldet ∧ 1 ≤ g ∧ g ≤ 5 := by
  constructor
  · intro h
    cases hf : s.leistungen.find? (fun x => x.id = lid) with
    | none =>
        rw [note_eintragen_of_find?_none s lid g hf] at h
        exact absurd h (by simp)
    | some l =>
        rw [note_eintragen_of_find?_some s lid g l hf] at h
        by_cases h1 : l.status ≠ ModulStatus.angemeldet
        · rw [if_pos h1] at h
          exact absurd h (by simp)
        · rw [if_neg h1] at h
          by_cases h2 : ¬ (1 ≤ g ∧ g ≤ 5)
          · rw [if_pos h2] at h
            exact absurd h (by simp)
          · push_neg at h2
            exact ⟨l, rfl, not_not.mp h1, h2⟩
  · rintro ⟨l, hf, hst, h1, h5⟩
    rw [note_eintragen_ok_eq s lid g l hf hst h1 h5]

/-! ### Claim theorems -/

/-- C1: for every student, achievement id and grade `g`,
`note_eintragen` fails with the not-found error when no achievement
with that id exists on the student; fails with the invalid-state error
when the (first) achievement with that id is not ANGEMELDET; fails
with the validation error when it is ANGEMELDET but `g` lies outside
[1.0, 5.0]; and succeeds exactly when the achievement exists, is
ANGEMELDET and `g ∈ [1.0, 5.0]`, in which case the achievement's grade
becomes `g` and its status BESTANDEN if `g ≤ 4.0`, NICHT_BESTANDEN
otherwise. -/
theorem note_eintragen_spec (s : Student) (lid : Nat) (g : ℚ) :
    ((∀ l ∈ s.leistungen, l.id ≠ lid) →
      note_eintragen s lid g = (Except.error NoteFehler.notFound, s))
    ∧ (∀ l, s.leistungen.find? (fun x => x.id = lid) = some l →
        (l.status ≠ ModulStatus.angemeldet →
          note_eintragen s lid g = (Except.error NoteFehler.invalidState, s))
        ∧ (l.status = ModulStatus.angemeldet → ¬ (1 ≤ g ∧ g ≤ 5) →
          note_eintragen s lid g = (Except.error NoteFehler.validation, s))
        ∧ (l.status = ModulStatus.angemeldet → 1 ≤ g → g ≤ 5 →
          (note_eintragen s lid g).1 = Except.ok () ∧
          (note_eintragen s lid g).2.leistungen.find? (fun x => x.id = lid)
            = some { l with
                note := some g
                status := if g ≤ 4 then ModulStatus.bestanden
                          else ModulStatus.nichtBestanden }))
    ∧ ((note_eintragen s lid g).1 = Except.ok () ↔
        ∃ l, s.leistungen.find? (fun x => x.id = lid) = some l ∧
          l.status = ModulStatus.angemeldet ∧ 1 ≤ g ∧ g ≤ 5) := by
  refine ⟨?_, ?_, note_eintragen_ok_iff s lid g⟩
  · intro hall
    apply note_eintragen_of_find?_none
    rw [List.find?_eq_none]
    intro x hx
    simpa using hall x hx
  · intro l hf
    refine ⟨?_, ?_, ?_⟩
    · intro hst
      rw [note_eintragen_of_find?_some s lid g l hf, if_pos hst]
    · intro hst hg
      rw [note_eintragen_of_find?_some s lid g l hf, if_neg (by simp [hst]),
        if_pos hg]
    · intro hst h1 h5
      have hifeq : (if 1 ≤ g ∧ g ≤ 4 then ModulStatus.bestanden
            else ModulStatus.nichtBestanden)
          = (if g ≤ 4 then ModulStatus.bestanden
             else ModulStatus.nichtBestanden) := by
        by_cases h4 : g ≤ 4
        · rw [if_pos ⟨h1, h4⟩, if_pos h4]
        · rw [if_neg (fun hc => h4 hc.2), if_neg h4]
      have heq := note_eintragen_ok_eq s lid g l hf hst h1 h5
      rw [hifeq] at heq
      rw [heq]
      exact ⟨rfl, find?_update_leistung s.leistungen lid g _ l hf⟩

/-- Witness for C1: on the sample student, entering grade 2.0 for
achievement 1 succeeds and leaves the achievement passed with grade
2.0. -/
theorem note_eintragen_spec_witness :
    (note_eintragen studentEx 1 2).1 = Except.ok () ∧
    (note_eintragen studentEx 1 2).2.leistungen.find? (fun x => x.id = 1)
      = some { leistungEx with
          note := some 2
          status := ModulStatus.bestanden } := by
  have h := ((note_eintragen_spec studentEx 1 2).2.1 leistungEx (by decide)).2.2
    (by decide) (by norm_num) (by norm_num)
  have hif : (if (2 : ℚ) ≤ 4 then ModulStatus.bestanden
      else ModulStatus.nichtBestanden) = ModulStatus.bestanden := by norm_num
  refine ⟨h.1, ?_⟩
  rw [h.2, hif]

/-- C5: whenever `note_eintragen` fails, the student aggregate is
returned exactly as it was before the call (validation precedes any
mutation). -/
theorem note_eintragen_fehler_unveraendert (s : Student) (lid : Nat) (g : ℚ)
    (e : NoteFehler) (h : (note_eintragen s lid g).1 = Except.error e) :
    (note_eintragen s lid g).2 = s := by
  cases hf : s.leistungen.find? (fun x => x.id = lid) with
  | none => rw [note_eintragen_of_find?_none s lid g hf]
  | some l =>
      rw [note_eintragen_of_find?_some s lid g l hf]
      by_cases h1 : l.status ≠ ModulStatus.angemeldet
      · rw [if_pos h1]
      · rw [if_neg h1]
        by_cases h2 : ¬ (1 ≤ g ∧ g ≤ 5)
        · rw [if_pos h2]
        · exfalso
          push_neg at h1 h2
          rw [note_eintragen_ok_eq s lid g l hf h1 h2.1 h2.2] at h
          exact absurd h (by simp)

/-- Witness for C5: a call with an unknown achievement id fails and
returns the sample student unchanged. -/
theorem note_eintragen_fehler_unveraendert_witness :
    (note_eintragen studentEx 2 2).2 = studentEx :=
  note_eintragen_fehler_unveraendert studentEx 2 2 NoteFehler.notFound (by decide)

/-- C7: if a first `note_eintragen` call on an achievement id
succeeds, a second call on the same id always fails with the
invalid-state error, whatever grade is passed the second time. -/
theorem note_eintragen_zweimal_invalid_state (s : Student) (lid : Nat)
    (g1 g2 : ℚ) (h : (note_eintragen s lid g1).1 = Except.ok ()) :
    (note_eintragen (note_eintragen s lid g1).2 lid g2).1
      = Except.error NoteFehler.invalidState := by
  rcases (note_eintragen_ok_iff s lid g1).mp h with ⟨l, hf, hst, h1, h5⟩
  have heq := note_eintragen_ok_eq s lid g1 l hf hst h1 h5
  have h2 : (note_eintragen s lid g1).2
      = { s with
            leistungen :=
              update_leistung s.leistungen lid g1
                (if 1 ≤ g1 ∧ g1 ≤ 4 then ModulStatus.bestanden
                 else ModulStatus.nichtBestanden) } := by
    rw [heq]
  rw [h2]
  have hne : ({ l with
      note := some g1
      status := if 1 ≤ g1 ∧ g1 ≤ 4 then ModulStatus.bestanden
                else ModulStatus.nichtBestanden }).status
      ≠ ModulStatus.angemeldet := by
    show (if 1 ≤ g1 ∧ g1 ≤ 4 then ModulStatus.bestanden
        else ModulStatus.nichtBestanden) ≠ ModulStatus.angemeldet
    split_ifs <;> simp
  rw [note_eintragen_of_find?_some
      ({ s with
          leistungen :=
            update_leistung s.leistungen lid g1
              (if 1 ≤ g1 ∧ g1 ≤ 4 then ModulStatus.bestanden
               else ModulStatus.nichtBestanden) }) lid g2
      ({ l with
          note := some g1
          status := if 1 ≤ g1 ∧ g1 ≤ 4 then ModulStatus.bestanden
                    else ModulStatus.nichtBestanden })
      (find?_update_leistung s.leistungen lid g1 _ l hf),
    if_pos hne]

/-- Witness for C7: after successfully grading achievement 1 of the
sample student, grading it again (with a valid grade) fails with the
invalid-state error. -/
theorem note_eintragen_zweimal_invalid_state_witness :
    (note_eintragen (note_eintragen studentEx 1 2).2 1 3).1
      = Except.error NoteFehler.invalidState :=
  note_eintragen_zweimal_invalid_state studentEx 1 2 3 (by decide)

/-- C6: a successful `note_eintragen` call preserves the invariant
that BESTANDEN achievements carry a present grade ≤ 4.0 and
NICHT_BESTANDEN achievements a present grade > 4.0. -/
theorem note_eintragen_invariante (s : Student) (lid : Nat) (g : ℚ)
    (hinv : NotenInvariante s)
    (hok : (note_eintragen s lid g).1 = Except.ok ()) :
    NotenInvariante (note_eintragen s lid g).2 := by
  rcases (note_eintragen_ok_iff s lid g).mp hok with ⟨l, hf, hst, h1, h5⟩
  have h2 : (note_eintragen s lid g).2
      = { s with
            leistungen :=
              update_leistung s.leistungen lid g
                (if 1 ≤ g ∧ g ≤ 4 then ModulStatus.bestanden
                 else ModulStatus.nichtBestanden) } := by
    rw [note_eintragen_ok_eq s lid g l hf hst h1 h5]
  rw [h2]
  intro x hx
  rcases mem_update_leistung hx with hmem | ⟨hnote, hstx⟩
  · exact hinv x hmem
  · constructor
    · intro hb
      refine ⟨g, hnote, ?_⟩
      by_cases h4 : 1 ≤ g ∧ g ≤ 4
      · exact h4.2
      · rw [hstx, if_neg h4] at hb
        exact absurd hb (by simp)
    · intro hb
      refine ⟨g, hnote, ?_⟩
      by_cases h4 : 1 ≤ g ∧ g ≤ 4
      · rw [hstx, if_pos h4] at hb
        exact absurd hb (by simp)
      · push_neg at h4
        exact h4 h1

/-- Witness for C6: the sample student satisfies the invariant, a call
entering grade 2.0 succeeds, and the invariant still holds
afterwards. -/
theorem note_eintragen_invariante_witness :
    NotenInvariante (note_eintragen studentEx 1 2).2 := by
  apply note_eintragen_invariante studentEx 1 2
  · intro x hx
    have hxe : x = leistungEx := by simpa [studentEx] using hx
    subst hxe
    exact ⟨fun h => absurd h (by decide), fun h => absurd h (by decide)⟩
  · decide

/-! ### Goal evaluation -/

theorem notenziel_eq (t : ℚ) (s : Student) :
    notenziel_werte_status_aus t s =
      match berechne_notendurchschnitt s with
      | none => ZielStatus.inArbeit
      | some d =>
          if d ≤ t then ZielStatus.erreicht
          else if d ≤ t + 3/10 then ZielStatus.inArbeit
          else ZielStatus.nichtErreicht := rfl

/-- C3: `Notenziel` evaluation returns IN_ARBEIT when no grade average
exists; with average `avg` it returns ERREICHT iff `avg ≤ t`,
IN_ARBEIT iff `t < avg ≤ t + 0.3`, and NICHT_ERREICHT iff
`avg > t + 0.3`. -/
theorem notenziel_status_spec (z_id : Nat) (t : ℚ) (heute : Datum) (s : Student) :
    (berechne_notendurchschnitt s = none →
      werte_status_aus (Studienziel.notenziel z_id t) heute s = ZielStatus.inArbeit)
    ∧ (∀ avg, berechne_notendurchschnitt s = some avg →
        ((werte_status_aus (Studienziel.notenziel z_id t) heute s
            = ZielStatus.erreicht ↔ avg ≤ t)
         ∧ (werte_status_aus (Studienziel.notenziel z_id t) heute s
            = ZielStatus.inArbeit ↔ t < avg ∧ avg ≤ t + 3/10)
         ∧ (werte_status_aus (Studienziel.notenziel z_id t) heute s
            = ZielStatus.nichtErreicht ↔ t + 3/10 < avg))) := by
  constructor
  · intro h
    show notenziel_werte_status_aus t s = ZielStatus.inArbeit
    rw [notenziel_eq, h]
  · intro avg h
    have hw : werte_status_aus (Studienziel.notenziel z_id t) heute s
        = if avg ≤ t then ZielStatus.erreicht
          else if avg ≤ t + 3/10 then ZielStatus.inArbeit
          else ZielStatus.nichtErreicht := by
      show notenziel_werte_status_aus t s = _
      rw [notenziel_eq, h]
    rw [hw]
    rcases le_or_lt avg t with h1 | h1
    · rw [if_pos h1]
      exact ⟨iff_of_true rfl h1,
        iff_of_false (by simp) (fun hc => absurd h1 (not_le.mpr hc.1)),
        iff_of_false (by simp) (by intro hc; linarith)⟩
    · rw [if_neg (not_le.mpr h1)]
      rcases le_or_lt avg (t + 3/10) with h2 | h2
      · rw [if_pos h2]
        exact ⟨iff_of_false (by simp) (not_le.mpr h1),
          iff_of_true rfl ⟨h1, h2⟩,
          iff_of_false (by simp) (not_lt.mpr h2)⟩
      · rw [if_neg (not_le.mpr h2)]
        exact ⟨iff_of_false (by simp) (not_le.mpr h1),
          iff_of_false (by simp) (fun hc => absurd hc.2 (not_le.mpr h2)),
          iff_of_true rfl h2⟩

/-- Witness for C3: the sample student's average is 1.8, and a grade
goal of 2.0 evaluates to ERREICHT. -/
theorem notenziel_status_spec_witness :
    berechne_notendurchschnitt studentEx2 = some (9/5)
    ∧ werte_status_aus (Studienziel.notenziel 1 2) ⟨2025, 10, 1⟩ studentEx2
      = ZielStatus.erreicht := by
  have havg : berechne_notendurchschnitt studentEx2 = some (9/5) := by
    simp [berechne_notendurchschnitt, relevante_noten, studentEx2, leistungEx2,
      leistungEx9, modulEx60, modulEx9]
  exact ⟨havg,
    (((notenziel_status_spec 1 2 ⟨2025, 10, 1⟩ studentEx2).2 (9/5) havg).1).mpr
      (by norm_num)⟩

theorem zeitziel_eq (t : Int) (heute : Datum) (s : Student) :
    zeitziel_werte_status_aus t heute s =
      if t ≤ 0 then ZielStatus.inArbeit
      else
        if 0 ≤ (berechne_gesamt_ects s : ℚ)
            - ((s.studiengang.gesamtects : ℚ) / (t : ℚ))
              * ((tage_diff heute s.studienbeginn : ℚ) / (36525/100 : ℚ))
        then ZielStatus.erreicht
        else if |(berechne_gesamt_ects s : ℚ)
            - ((s.studiengang.gesamtects : ℚ) / (t : ℚ))
              * ((tage_diff heute s.studienbeginn : ℚ) / (36525/100 : ℚ))| ≤ 15
        then ZielStatus.inArbeit
        else ZielStatus.nichtErreicht := rfl

/-- C2: `Zeitziel` evaluation returns IN_ARBEIT for a non-positive
target duration; otherwise, with expected credits
`(totalCredits / t) * (daysSinceStart / 365.25)` and actual earned
credits, it returns ERREICHT iff actual ≥ expected, IN_ARBEIT iff
actual is behind expected by at most 15 credits, and NICHT_ERREICHT
iff actual is more than 15 credits behind. -/
theorem zeitziel_status_spec (z_id : Nat) (t : Int) (heute : Datum) (s : Student) :
    (t ≤ 0 →
      werte_status_aus (Studienziel.zeitziel z_id t) heute s = ZielStatus.inArbeit)
    ∧ (0 < t →
        ∀ expected actual : ℚ,
          expected = ((s.studiengang.gesamtects : ℚ) / (t : ℚ))
            * ((tage_diff heute s.studienbeginn : ℚ) / (36525/100 : ℚ)) →
          actual = (berechne_gesamt_ects s : ℚ) →
          ((werte_status_aus (Studienziel.zeitziel z_id t) heute s
              = ZielStatus.erreicht ↔ expected ≤ actual)
           ∧ (werte_status_aus (Studienziel.zeitziel z_id t) heute s
              = ZielStatus.inArbeit ↔ actual < expected ∧ expected - actual ≤ 15)
           ∧ (werte_status_aus (Studienziel.zeitziel z_id t) heute s
              = ZielStatus.nichtErreicht ↔ 15 < expected - actual))) := by
  constructor
  · intro h
    show zeitziel_werte_status_aus t heute s = ZielStatus.inArbeit
    rw [zeitziel_eq, if_pos h]
  · intro ht expected actual he ha
    have hw : werte_status_aus (Studienziel.zeitziel z_id t) heute s
        = if 0 ≤ actual - expected then ZielStatus.erreicht
          else if |actual - expected| ≤ 15 then ZielStatus.inArbeit
          else ZielStatus.nichtErreicht := by
      show zeitziel_werte_status_aus t heute s = _
      rw [zeitziel_eq, if_neg (not_le.mpr ht), he, ha]
    rw [hw]
    rcases le_or_lt expected actual with h1 | h1
    · rw [if_pos (by linarith)]
      exact ⟨iff_of_true rfl h1,
        iff_of_false (by simp) (fun hc => absurd h1 (not_le.mpr hc.1)),
        iff_of_false (by simp) (by intro hc; linarith)⟩
    · rw [if_neg (by simp; linarith)]
      have habs : |actual - expected| = expected - actual := by
        rw [abs_of_neg (by linarith)]
        ring
      rw [habs]
      rcases le_or_lt (expected - actual) 15 with h2 | h2
      · rw [if_pos h2]
        exact ⟨iff_of_false (by simp) (not_le.mpr h1),
          iff_of_true rfl ⟨h1, h2⟩,
          iff_of_false (by simp) (not_lt.mpr h2)⟩
      · rw [if_neg (not_le.mpr h2)]
        exact ⟨iff_of_false (by simp) (not_le.mpr h1),
          iff_of_false (by simp) (fun hc => absurd hc.2 (not_le.mpr h2)),
          iff_of_true rfl h2⟩

/-- Witness for C2: with a 3-year goal, a 180-ECTS program, 365 days
elapsed and 60 ECTS earned, the time goal evaluates to ERREICHT. -/
theorem zeitziel_status_spec_witness :
    werte_status_aus (Studienziel.zeitziel 1 3) ⟨2025, 10, 1⟩ studentEx2
      = ZielStatus.erreicht := by
  have h := (zeitziel_status_spec 1 3 ⟨2025, 10, 1⟩ studentEx2).2 (by norm_num)
    (((studentEx2.studiengang.gesamtects : ℚ) / ((3 : Int) : ℚ))
      * ((tage_diff ⟨2025, 10, 1⟩ studentEx2.studienbeginn : ℚ) / (36525/100 : ℚ)))
    ((berechne_gesamt_ects studentEx2 : ℚ)) rfl rfl
  apply h.1.mpr
  have e1 : studentEx2.studiengang.gesamtects = 180 := rfl
  have e2 : tage_diff ⟨2025, 10, 1⟩ studentEx2.studienbeginn = 365 := by decide
  have e3 : berechne_gesamt_ects studentEx2 = 60 := by decide
  rw [e1, e2, e3]
  norm_num

/-! ### Grade average -/

theorem relevante_noten_eq_filter (ls : List Studienleistung) :
    ls.filterMap (fun l =>
      match l.note with
      | some n =>
          if l.status = ModulStatus.bestanden ∨ l.status = ModulStatus.nichtBestanden
          then some n else none
      | none => none)
    = (ls.filter (fun l =>
        (l.status = ModulStatus.bestanden ∨ l.status = ModulStatus.nichtBestanden)
        ∧ l.note.isSome)).filterMap (fun l => l.note) := by
  induction ls with
  | nil => rfl
  | cons a as ih =>
      cases hn : a.note with
      | none => simp [List.filterMap_cons, List.filter_cons, hn, ih]
      | some n =>
          by_cases hs : a.status = ModulStatus.bestanden
              ∨ a.status = ModulStatus.nichtBestanden
          · simp [List.filterMap_cons, List.filter_cons, hn, hs, ih]
          · simp [List.filterMap_cons, List.filter_cons, hn, hs, ih]

theorem relevante_noten_nil_iff (ls : List Studienleistung) :
    (ls.filter (fun l =>
        (l.status = ModulStatus.bestanden ∨ l.status = ModulStatus.nichtBestanden)
        ∧ l.note.isSome)).filterMap (fun l => l.note) = []
      ↔ ls.filter (fun l =>
        (l.status = ModulStatus.bestanden ∨ l.status = ModulStatus.nichtBestanden)
        ∧ l.note.isSome) = [] := by
  induction ls with
  | nil => simp
  | cons a as ih =>
      by_cases hc : (a.status = ModulStatus.bestanden
          ∨ a.status = ModulStatus.nichtBestanden) ∧ a.note.isSome
      · rw [List.filter_cons_of_pos (by simpa using hc)]
        cases hn : a.note with
        | none => rw [hn] at hc; simp at hc
        | some n => simp [List.filterMap_cons, hn]
      · rw [List.filter_cons_of_neg (by simpa using hc)]
        exact ih

/-- C4: the grade average is the unweighted arithmetic mean of the
grades of exactly the achievements whose status is BESTANDEN or
NICHT_BESTANDEN and whose grade is present, and it is `none` iff no
such achievement exists. -/
theorem notendurchschnitt_spec (s : Student) :
    (berechne_notendurchschnitt s
      = (if s.leistungen.filter (fun l =>
            (l.status = ModulStatus.bestanden ∨ l.status = ModulStatus.nichtBestanden)
            ∧ l.note.isSome) = [] then none
         else some
          (((s.leistungen.filter (fun l =>
              (l.status = ModulStatus.bestanden ∨ l.status = ModulStatus.nichtBestanden)
              ∧ l.note.isSome)).filterMap (fun l => l.note)).sum
            / (((s.leistungen.filter (fun l =>
              (l.status = ModulStatus.bestanden ∨ l.status = ModulStatus.nichtBestanden)
              ∧ l.note.isSome)).filterMap (fun l => l.note)).length : ℚ))))
    ∧ (berechne_notendurchschnitt s = none ↔
        ∀ l ∈ s.leistungen,
          ¬ ((l.status = ModulStatus.bestanden ∨ l.status = ModulStatus.nichtBestanden)
             ∧ l.note.isSome)) := by
  have hrel : relevante_noten s
      = (s.leistungen.filter (fun l =>
          (l.status = ModulStatus.bestanden ∨ l.status = ModulStatus.nichtBestanden)
          ∧ l.note.isSome)).filterMap (fun l => l.note) :=
    relevante_noten_eq_filter s.leistungen
  constructor
  · unfold berechne_notendurchschnitt
    rw [hrel]
    by_cases h : s.leistungen.filter (fun l =>
        (l.status = ModulStatus.bestanden ∨ l.status = ModulStatus.nichtBestanden)
        ∧ l.note.isSome) = []
    · rw [if_pos ((relevante_noten_nil_iff s.leistungen).mpr h), if_pos h]
    · rw [if_neg (fun hc => h ((relevante_noten_nil_iff s.leistungen).mp hc)),
        if_neg h]
  · unfold berechne_notendurchschnitt
    rw [hrel]
    by_cases h : s.leistungen.filter (fun l =>
        (l.status = ModulStatus.bestanden ∨ l.status = ModulStatus.nichtBestanden)
        ∧ l.note.isSome) = []
    · rw [if_pos ((relevante_noten_nil_iff s.leistungen).mpr h)]
      apply iff_of_true rfl
      rw [List.filter_eq_nil_iff] at h
      intro l hl
      simpa using h l hl
    · rw [if_neg (fun hc => h ((relevante_noten_nil_iff s.leistungen).mp hc))]
      apply iff_of_false (by simp)
      intro hall
      apply h
      rw [List.filter_eq_nil_iff]
      intro l hl
      simpa using hall l hl

/-! ### Dashboard semester grouping -/

theorem semester_fold_char (ls : List Studienleistung)
    (f : Nat → Option (List LeistungView))
    (hf : ∀ k, (f k).isSome ↔ (1 ≤ k ∧ k ≤ 6)) (k : Nat) :
    ls.foldl semester_schritt f k
      = (f k).map (fun xs =>
          xs ++ (ls.filter (fun l => l.modul.semester = k)).map leistungView) := by
  induction ls generalizing f with
  | nil =>
      cases hfk : f k <;> simp [hfk]
  | cons a as ih =>
      have hstep : ∀ k, ((semester_schritt f a) k).isSome ↔ (1 ≤ k ∧ k ≤ 6) := by
        intro j
        unfold semester_schritt
        by_cases hs : (f a.modul.semester).isSome
        · rw [if_pos hs]
          by_cases hj : j = a.modul.semester
          · rw [if_pos hj]
            have hjy := hf j
            cases hfj : f j with
            | none => rw [hfj] at hjy; simpa using hjy
            | some xs => rw [hfj] at hjy; simpa using hjy
          · rw [if_neg hj]
            exact hf j
        · rw [if_neg hs]
          exact hf j
      rw [List.foldl_cons, ih (semester_schritt f a) hstep]
      unfold semester_schritt
      by_cases hs : (f a.modul.semester).isSome
      · rw [if_pos hs]
        by_cases hk : k = a.modul.semester
        · rw [if_pos hk]
          have hcond : a.modul.semester = k := hk.symm
          cases hfk : f k with
          | none => simp
          | some xs =>
              simp [List.filter_cons, hcond, List.append_assoc]
        · rw [if_neg hk]
          have hcond : ¬ a.modul.semester = k := fun hc => hk hc.symm
          simp [List.filter_cons, hcond]
      · rw [if_neg hs]
        by_cases hk : a.modul.semester = k
        · have hfk : f k = none := by
            rw [← hk]
            exact Option.not_isSome_iff_eq_none.mp hs
          simp [hfk]
        · simp [List.filter_cons, hk]

/-- C8: the dashboard's semester grouping maps every semester number
in 1..6 exactly to the student's achievements whose module's
recommended semester equals that number, in original list order, as
`LeistungView` summaries; keys outside 1..6 are absent from the
mapping, so out-of-range achievements appear nowhere and cause no
error. -/
theorem semester_daten_map_spec (s : Student) (k : Nat) :
    (1 ≤ k ∧ k ≤ 6 →
      semester_daten_map s.leistungen k
        = some ((s.leistungen.filter
            (fun l => l.modul.semester = k)).map leistungView))
    ∧ (¬ (1 ≤ k ∧ k ≤ 6) → semester_daten_map s.leistungen k = none) := by
  have hinit : ∀ k, (semester_init k).isSome ↔ (1 ≤ k ∧ k ≤ 6) := by
    intro j
    unfold semester_init
    by_cases h : 1 ≤ j ∧ j ≤ 6 <;> simp [h]
  have h := semester_fold_char s.leistungen semester_init hinit k
  constructor
  · intro hk
    unfold semester_daten_map
    rw [h]
    unfold semester_init
    rw [if_pos hk]
    simp
  · intro hk
    unfold semester_daten_map
    rw [h]
    unfold semester_init
    rw [if_neg hk]
    rfl

/-- Witness for C8: on the second sample student, semester 2 holds
exactly the one semester-2 achievement, while key 9 (the semester of
the out-of-range achievement) is absent from the mapping. -/
theorem semester_daten_map_spec_witness :
    semester_daten_map studentEx2.leistungen 2 = some [leistungView leistungEx2]
    ∧ semester_daten_map studentEx2.leistungen 9 = none := by
  constructor
  · rw [(semester_daten_map_spec studentEx2 2).1 (by decide)]
    rfl
  · exact (semester_daten_map_spec studentEx2 9).2 (by decide)

/-! ### Current semester -/

/-- C9: the current semester is derived from elapsed time, namely the
difference in calendar months between today and the study-start date
(difference of absolute month indices, day-of-month playing no role),
floor-divided by 6, plus 1 — and it does not depend on the student's
achievements (time-based policy, not the credits-based
alternative). -/
theorem aktuelles_semester_spec (heute : Datum) (s : Student) :
    berechne_aktuelles_semester heute s
      = ((12 * heute.year + heute.month)
          - (12 * s.studienbeginn.year + s.studienbeginn.month)).fdiv 6 + 1
    ∧ (∀ ls, berechne_aktuelles_semester heute { s with leistungen := ls }
        = berechne_aktuelles_semester heute s) := by
  constructor
  · have harg : (heute.year - s.studienbeginn.year) * 12
          + (heute.month - s.studienbeginn.month)
        = (12 * heute.year + heute.month)
          - (12 * s.studienbeginn.year + s.studienbeginn.month) := by
      ring
    show ((heute.year - s.studienbeginn.year) * 12
        + (heute.month - s.studienbeginn.month)).fdiv 6 + 1 = _
    rw [harg]
  · intro ls
    rfl

/-! ### Service operations on an absent student -/

/-- C10: when `find_by_id` returns `none`, both service operations
fault with the unguarded attribute error (the Python `AttributeError`
of invoking a method on `None`) and in particular neither returns a
not-found domain error. -/
theorem service_fehlender_student_fault (repo : Repo) (heute : Datum)
    (sid lid : Nat) (g : ℚ) (h : repo.find_by_id sid = none) :
    get_student_dashboard repo heute sid
      = Except.error ServiceFehler.attributeError
    ∧ note_speichern repo sid lid g
      = Except.error ServiceFehler.attributeError
    ∧ (∀ e, ServiceFehler.attributeError ≠ ServiceFehler.valueError e) := by
  refine ⟨?_, ?_, fun e => by simp⟩
  · unfold get_student_dashboard
    rw [h]
  · unfold note_speichern
    rw [h]

/-- Witness for C10: on the empty repository both operations return
the attribute fault. -/
theorem service_fehlender_student_fault_witness :
    get_student_dashboard repoLeer ⟨2025, 10, 1⟩ 1
      = Except.error ServiceFehler.attributeError
    ∧ note_speichern repoLeer 1 1 2
      = Except.error ServiceFehler.attributeError := by
  have h := service_fehlender_student_fault repoLeer ⟨2025, 10, 1⟩ 1 1 2 rfl
  exact ⟨h.1, h.2.1⟩

end StudyDashboard
